import Mathlib

/-!
Shallow embedding of src/libopensles/IDynamicInterfaceManagement.c
(the DynamicInterfaceManagement implementation of the wilhelm OpenSL ES
library): the per-interface-slot state machine driven by AddInterface,
RemoveInterface, ResumeInterface and the worker handlers HandleAdd and
HandleResume.

Modelling decisions, each tied to a place in the source:
* Machine state observable by this file is the per-slot state byte array
  `mInterfaceStates` and the acquired-interface bitmask `mGottenMask` of the
  owning IObject.  Everything else the code does (locking, memset, the
  back-pointer store, hook and callback invocations, worker-pool enqueues)
  is recorded in an event trace, in program order.
* Release (NDEBUG) semantics: `assert` is a no-op, and the debug-only
  `memset(thisItf, 0x55, size)` of RemoveInterface (guarded by
  `#ifndef NDEBUG`, lines 213-217) is omitted.
* Addresses are naturals: the owning object lives at `Env.base`, the
  IDynamicInterfaceManagement instance (the C `this`) inside it at
  `Env.base + Env.dimOffset`, and interface `index` of the class at
  `Env.base + classTab.mOffsets index` with size `itfSize`.
* The external collaborators (IID_to_MPH, the class table, MPH_init_table
  hook presence, ThreadPool_add's result, the registered callback's
  presence) are inputs in `Env` or explicit parameters; their internals are
  out of scope per the spec.
* The only unlocked window in which the enqueue-failure paths re-examine
  the slot (AddInterface lines 123-131, ResumeInterface lines 338-346) is
  modelled by an explicit `interfere` parameter: the value other threads
  may have stored into the slot while the lock was released.  Elsewhere the
  functions are modelled as running without interference.
-/

/-- Modelled from the spec: the ten INTERFACE_* slot states of §4.1; the
numeric values from sles_allinclusive.h (not under src/) are irrelevant to
the code in src/, which only compares and stores them. -/
inductive IState where
  | uninitialized
  | adding_1
  | adding_1A
  | adding_2
  | added
  | suspended
  | resuming_1
  | resuming_1A
  | resuming_2
  | removing
deriving DecidableEq, Repr

/-- Observable actions of the code, recorded in program order.
`stateWrite i s` is a store `*interfaceStateP = s` for slot `i`;
`memsetZero a n` is `memset((void*)a, 0, n)`; `backref a` is the store
`((void **) a)[1] = thisObject`; the hook events record the address passed
to the init/deinit/resume hook; `callbackEv ev r mph` is an invocation of
the registered callback with the given event code, result and interface. -/
inductive Event where
  | lock
  | unlock
  | stateWrite (idx : Nat) (s : IState)
  | memsetZero (addr size : Nat)
  | backref (addr : Nat)
  | initHook (addr : Nat)
  | deinitHook (addr : Nat)
  | resumeHook (addr : Nat)
  | enqueueAdd (mph : Nat)
  | enqueueResume (mph : Nat)
  | callbackEv (event result mph : Nat)
deriving DecidableEq, Repr

/-- The fields of the owning IObject that this file reads or writes:
the per-slot state array and the acquired-interface bitmask. -/
@[ext] structure IObject where
  mInterfaceStates : Nat → IState
  mGottenMask : Nat

/-- The per-class layout table (ClassTable in the C): MPH-to-index map
(negative means the class does not declare that interface), interface
count, per-index byte offsets (mInterfaces[i].mOffset) and total size. -/
structure ClassTable where
  mMPH_to_index : Nat → Int
  mInterfaceCount : Nat
  mOffsets : Nat → Nat
  mSize : Nat

/-- External collaborators of IDynamicInterfaceManagement.c, specified at
their boundary: the class table of the owning object, the global
IID_to_MPH resolver (negative means unknown IID), presence of the
per-MPH init/deinit/resume hooks in MPH_init_table, the object's base
address, the offset of the IDynamicInterfaceManagement instance inside
the object (the C `this` pointer is base + dimOffset), and whether a
callback is currently registered (thisDIM->mCallback != NULL). -/
structure Env where
  classTab : ClassTable
  IID_to_MPH : Nat → Int
  hasInit : Nat → Bool
  hasDeinit : Nat → Bool
  hasResume : Nat → Bool
  base : Nat
  dimOffset : Nat
  hasCallback : Bool

/-- Result codes from OpenSLES.h (external header). -/
def SL_RESULT_SUCCESS : Nat := 0x00000000

def SL_RESULT_PRECONDITIONS_VIOLATED : Nat := 0x00000001

def SL_RESULT_PARAMETER_INVALID : Nat := 0x00000002

def SL_RESULT_RESOURCE_ERROR : Nat := 0x00000004

def SL_RESULT_FEATURE_UNSUPPORTED : Nat := 0x0000000C

def SL_RESULT_INTERNAL_ERROR : Nat := 0x0000000D

def SL_RESULT_OPERATION_ABORTED : Nat := 0x0000000F

def SL_DYNAMIC_ITF_EVENT_ASYNC_TERMINATION : Nat := 0x00000002

/-- All-ones 32-bit mask: the C `~(1 << index)` on the unsigned 32-bit
mGottenMask is `UINT32_MASK ^^^ (1 <<< index)`. -/
def UINT32_MASK : Nat := 2 ^ 32 - 1

/-- Store `s` into slot `idx` of the object's state array. -/
def setState (obj : IObject) (idx : Nat) (s : IState) : IObject :=
  { obj with mInterfaceStates := fun j => if j = idx then s else obj.mInterfaceStates j }

/-- Size of the backing region of interface `index`: lines 55-56 and
150-151 of the source, `(index+1 == mInterfaceCount ? mSize :
mInterfaces[index+1].mOffset) - mInterfaces[index].mOffset`. -/
def itfSize (c : ClassTable) (index : Nat) : Nat :=
  (if index + 1 = c.mInterfaceCount then c.mSize else c.mOffsets (index + 1)) - c.mOffsets index

/-- HandleAdd, lines 24-97: worker-thread completion of an asynchronous
AddInterface.  Returns the updated object and the event trace.  The final
store `*interfaceStateP = state` of line 84 is the last `stateWrite` of
each branch; in the ADDING_1 branch the slot passes through ADDING_2
(line 48) before the final ADDED, both recorded in the trace. -/
def HandleAdd (env : Env) (obj : IObject) (MPH : Nat) : IObject × List Event :=
  let class__ := env.classTab
  let index := (class__.mMPH_to_index MPH).toNat
  let tail := fun (result : Nat) =>
    if env.hasCallback then
      [Event.callbackEv SL_DYNAMIC_ITF_EVENT_ASYNC_TERMINATION result MPH]
    else []
  match obj.mInterfaceStates index with
  | IState.adding_1 =>
      let offset := class__.mOffsets index
      let thisItf := env.base + offset
      let size := itfSize class__ index
      (setState obj index IState.added,
       [Event.lock, Event.stateWrite index IState.adding_2, Event.unlock,
        Event.memsetZero thisItf size, Event.backref thisItf]
       ++ (if env.hasInit MPH then [Event.initHook thisItf] else [])
       ++ [Event.lock, Event.stateWrite index IState.added, Event.unlock]
       ++ tail SL_RESULT_SUCCESS)
  | IState.adding_1A =>
      (setState obj index IState.uninitialized,
       [Event.lock, Event.stateWrite index IState.uninitialized, Event.unlock]
       ++ tail SL_RESULT_OPERATION_ABORTED)
  | s =>
      (setState obj index s,
       [Event.lock, Event.stateWrite index s, Event.unlock]
       ++ tail SL_RESULT_INTERNAL_ERROR)

/-- HandleResume, lines 244-312: worker-thread completion of an
asynchronous ResumeInterface.  The resume hook receives
`(char *) thisObject + offset` (line 274). -/
def HandleResume (env : Env) (obj : IObject) (MPH : Nat) : IObject × List Event :=
  let class__ := env.classTab
  let index := (class__.mMPH_to_index MPH).toNat
  let tail := fun (result : Nat) =>
    if env.hasCallback then
      [Event.callbackEv SL_DYNAMIC_ITF_EVENT_ASYNC_TERMINATION result MPH]
    else []
  match obj.mInterfaceStates index with
  | IState.resuming_1 =>
      let offset := class__.mOffsets index
      let thisItf := env.base + offset
      (setState obj index IState.added,
       [Event.lock, Event.stateWrite index IState.resuming_2, Event.unlock]
       ++ (if env.hasResume MPH then [Event.resumeHook thisItf] else [])
       ++ [Event.lock, Event.stateWrite index IState.added, Event.unlock]
       ++ tail SL_RESULT_SUCCESS)
  | IState.resuming_1A =>
      (setState obj index IState.suspended,
       [Event.lock, Event.stateWrite index IState.suspended, Event.unlock]
       ++ tail SL_RESULT_OPERATION_ABORTED)
  | s =>
      (setState obj index s,
       [Event.lock, Event.stateWrite index s, Event.unlock]
       ++ tail SL_RESULT_INTERNAL_ERROR)

/-- IDynamicInterfaceManagement_AddInterface, lines 99-177.
`iid = none` is the C NULL; `poolResult` is what ThreadPool_add (line 126)
returns when reached; `interfere` is the slot value other threads may have
stored during the unlocked enqueue window, observed by the re-examination
of lines 130-139.  Returns (result, updated object, trace).  On the async
success path the source unlocks at line 123 and again at line 175 without
re-locking; the trace records both unlocks. -/
def IDynamicInterfaceManagement_AddInterface (env : Env) (obj : IObject)
    (iid : Option Nat) (async : Bool) (poolResult : Nat)
    (interfere : IState → IState) : Nat × IObject × List Event :=
  match iid with
  | none => (SL_RESULT_PARAMETER_INVALID, obj, [])
  | some iidv =>
    let MPH := env.IID_to_MPH iidv
    if MPH < 0 then (SL_RESULT_FEATURE_UNSUPPORTED, obj, [])
    else
      let index := env.classTab.mMPH_to_index MPH.toNat
      if index < 0 then (SL_RESULT_FEATURE_UNSUPPORTED, obj, [])
      else
        let idx := index.toNat
        let mph := MPH.toNat
        match obj.mInterfaceStates idx with
        | IState.uninitialized =>
          if async then
            let obj1 := setState obj idx IState.adding_1
            if poolResult = SL_RESULT_SUCCESS then
              (poolResult, obj1,
               [Event.lock, Event.stateWrite idx IState.adding_1, Event.unlock,
                Event.enqueueAdd mph, Event.unlock])
            else
              let s := interfere IState.adding_1
              let obj2 := setState obj1 idx s
              match s with
              | IState.adding_1 | IState.adding_1A =>
                (poolResult, setState obj2 idx IState.uninitialized,
                 [Event.lock, Event.stateWrite idx IState.adding_1, Event.unlock,
                  Event.enqueueAdd mph, Event.lock,
                  Event.stateWrite idx IState.uninitialized, Event.unlock])
              | _ =>
                (poolResult, obj2,
                 [Event.lock, Event.stateWrite idx IState.adding_1, Event.unlock,
                  Event.enqueueAdd mph, Event.lock, Event.unlock])
          else
            let offset := env.classTab.mOffsets idx
            let thisItf := env.base + offset
            let size := itfSize env.classTab idx
            (SL_RESULT_SUCCESS, setState obj idx IState.added,
             [Event.lock, Event.stateWrite idx IState.adding_2, Event.unlock,
              Event.memsetZero thisItf size, Event.backref thisItf]
             ++ (if env.hasInit mph then [Event.initHook thisItf] else [])
             ++ [Event.lock, Event.stateWrite idx IState.added, Event.unlock])
        | _ => (SL_RESULT_PRECONDITIONS_VIOLATED, obj, [Event.lock, Event.unlock])

/-- IDynamicInterfaceManagement_RemoveInterface, lines 179-239.  The
acquired bit is cleared by `mGottenMask &= ~(1 << index)` (line 203) on
the unsigned 32-bit mask; the deinit hook receives
`(char *) thisObject + offset` (lines 207-212). -/
def IDynamicInterfaceManagement_RemoveInterface (env : Env) (obj : IObject)
    (iid : Option Nat) : Nat × IObject × List Event :=
  match iid with
  | none => (SL_RESULT_PARAMETER_INVALID, obj, [])
  | some iidv =>
    let MPH := env.IID_to_MPH iidv
    if MPH < 0 then (SL_RESULT_PRECONDITIONS_VIOLATED, obj, [])
    else
      let index := env.classTab.mMPH_to_index MPH.toNat
      if index < 0 then (SL_RESULT_PRECONDITIONS_VIOLATED, obj, [])
      else
        let idx := index.toNat
        let mph := MPH.toNat
        match obj.mInterfaceStates idx with
        | IState.added | IState.suspended =>
          let offset := env.classTab.mOffsets idx
          let thisItf := env.base + offset
          let obj1 := setState obj idx IState.removing
          let obj2 := { obj1 with
            mGottenMask := obj1.mGottenMask &&& (UINT32_MASK ^^^ (1 <<< idx)) }
          (SL_RESULT_SUCCESS, setState obj2 idx IState.uninitialized,
           [Event.lock, Event.stateWrite idx IState.removing, Event.unlock]
           ++ (if env.hasDeinit mph then [Event.deinitHook thisItf] else [])
           ++ [Event.lock, Event.stateWrite idx IState.uninitialized, Event.unlock])
        | _ => (SL_RESULT_PRECONDITIONS_VIOLATED, obj, [Event.lock, Event.unlock])

/-- IDynamicInterfaceManagement_ResumeInterface, lines 314-388.  Two
source oddities are reproduced exactly: the synchronous resume hook
receives `(char *) this + offset` (line 365), i.e. base + dimOffset +
offset, not base + offset; and the default (guard-mismatch) case unlocks
at line 381 and then again at line 386, so its trace holds one lock and
two unlocks. -/
def IDynamicInterfaceManagement_ResumeInterface (env : Env) (obj : IObject)
    (iid : Option Nat) (async : Bool) (poolResult : Nat)
    (interfere : IState → IState) : Nat × IObject × List Event :=
  match iid with
  | none => (SL_RESULT_PARAMETER_INVALID, obj, [])
  | some iidv =>
    let MPH := env.IID_to_MPH iidv
    if MPH < 0 then (SL_RESULT_PRECONDITIONS_VIOLATED, obj, [])
    else
      let index := env.classTab.mMPH_to_index MPH.toNat
      if index < 0 then (SL_RESULT_PRECONDITIONS_VIOLATED, obj, [])
      else
        let idx := index.toNat
        let mph := MPH.toNat
        match obj.mInterfaceStates idx with
        | IState.suspended =>
          if async then
            let obj1 := setState obj idx IState.resuming_1
            if poolResult = SL_RESULT_SUCCESS then
              (poolResult, obj1,
               [Event.lock, Event.stateWrite idx IState.resuming_1, Event.unlock,
                Event.enqueueResume mph, Event.unlock])
            else
              let s := interfere IState.resuming_1
              let obj2 := setState obj1 idx s
              match s with
              | IState.resuming_1 | IState.resuming_1A =>
                (poolResult, setState obj2 idx IState.suspended,
                 [Event.lock, Event.stateWrite idx IState.resuming_1, Event.unlock,
                  Event.enqueueResume mph, Event.lock,
                  Event.stateWrite idx IState.suspended, Event.unlock])
              | _ =>
                (poolResult, obj2,
                 [Event.lock, Event.stateWrite idx IState.resuming_1, Event.unlock,
                  Event.enqueueResume mph, Event.lock, Event.unlock])
          else
            let offset := env.classTab.mOffsets idx
            let thisItf := env.base + env.dimOffset + offset
            (SL_RESULT_SUCCESS, setState obj idx IState.added,
             [Event.lock, Event.stateWrite idx IState.resuming_2, Event.unlock]
             ++ (if env.hasResume mph then [Event.resumeHook thisItf] else [])
             ++ [Event.lock, Event.stateWrite idx IState.added, Event.unlock])
        | _ => (SL_RESULT_PRECONDITIONS_VIOLATED, obj,
                [Event.lock, Event.unlock, Event.unlock])

/-- True exactly on `lock` events. -/
def Event.isLock : Event → Bool
  | .lock => true
  | _ => false

/-- True exactly on `unlock` events. -/
def Event.isUnlock : Event → Bool
  | .unlock => true
  | _ => false

/-- True exactly on callback invocations. -/
def Event.isCallback : Event → Bool
  | .callbackEv _ _ _ => true
  | _ => false

/-- True exactly on hook invocations (init, deinit or resume). -/
def Event.isHook : Event → Bool
  | .initHook _ | .deinitHook _ | .resumeHook _ => true
  | _ => false

/-- True on the work the code performs on the backing region: zeroing,
back-reference installation and hook invocations. -/
def Event.isWork : Event → Bool
  | .memsetZero _ _ | .backref _ | .initHook _ | .deinitHook _ | .resumeHook _ => true
  | _ => false

/-- Contribution of one event to the lock depth. -/
def lockDelta : Event → Int
  | .lock => 1
  | .unlock => -1
  | _ => 0

/-- Lock depth immediately before the event at position `n` of the trace
(starting from depth 0). -/
def heldBefore (t : List Event) (n : Nat) : Int :=
  ((t.take n).map lockDelta).sum

/-- Every event of `t` satisfying `p` happens while the object lock is not
held (lock depth zero at that point). -/
def unlockedWhen (t : List Event) (p : Event → Bool) : Prop :=
  ∀ (n : Nat) (e : Event), t.get? n = some e → p e = true → heldBefore t n = 0

/-- The lock is balanced along `t`: the depth never goes negative (no
over-release) and returns to zero at the end (not held on return). -/
def lockBalanced (t : List Event) : Prop :=
  (∀ n : Nat, 0 ≤ heldBefore t n) ∧ heldBefore t t.length = 0

/-- Executable check that every `p`-event of the trace occurs at lock
depth zero, starting from depth `d`. -/
def checkUnlocked (p : Event → Bool) : List Event → Int → Bool
  | [], _ => true
  | e :: t, d => (!(p e) || (d == 0)) && checkUnlocked p t (d + lockDelta e)

theorem checkUnlocked_go (p : Event → Bool) :
    ∀ (t : List Event) (d : Int), checkUnlocked p t d = true →
      ∀ (n : Nat) (e : Event), t.get? n = some e → p e = true →
        d + ((t.take n).map lockDelta).sum = 0 := by
  intro t
  induction t with
  | nil =>
      intro d _ n e hn _
      simp [List.get?] at hn
  | cons a rest ih =>
      intro d h n e hn hp
      simp only [checkUnlocked, Bool.and_eq_true, Bool.or_eq_true,
        Bool.not_eq_true', beq_iff_eq] at h
      obtain ⟨h1, h2⟩ := h
      cases n with
      | zero =>
          rw [List.get?_cons_zero] at hn
          cases hn
          simp only [List.take_zero, List.map_nil, List.sum_nil, add_zero]
          rcases h1 with h1 | h1
          · rw [hp] at h1
            cases h1
          · exact h1
      | succ m =>
          rw [List.get?_cons_succ] at hn
          have hrec := ih (d + lockDelta a) h2 m e hn hp
          simp only [List.take_succ_cons, List.map_cons, List.sum_cons]
          omega

theorem checkUnlocked_sound {p : Event → Bool} {t : List Event}
    (h : checkUnlocked p t 0 = true) : unlockedWhen t p := by
  intro n e hn hp
  have := checkUnlocked_go p t 0 h n e hn hp
  simpa [heldBefore] using this

@[simp] theorem setState_same (obj : IObject) (idx : Nat) (s : IState) :
    (setState obj idx s).mInterfaceStates idx = s := by
  simp [setState]

theorem setState_other (obj : IObject) (idx j : Nat) (s : IState) (h : j ≠ idx) :
    (setState obj idx s).mInterfaceStates j = obj.mInterfaceStates j := by
  simp [setState, h]

@[simp] theorem setState_mask (obj : IObject) (idx : Nat) (s : IState) :
    (setState obj idx s).mGottenMask = obj.mGottenMask := rfl

/-- Clearing a bit of the 32-bit mask the way line 203 does clears it. -/
theorem clearBit_testBit (m idx : Nat) (h : idx < 32) :
    ((m &&& (UINT32_MASK ^^^ (1 <<< idx))).testBit idx) = false := by
  have h1 : (1 : Nat) <<< idx = 2 ^ idx := Nat.one_shiftLeft idx
  rw [UINT32_MASK, h1, Nat.testBit_land, Nat.testBit_xor,
      Nat.testBit_two_pow_sub_one, Nat.testBit_two_pow_self]
  simp [h]

/-- A small concrete class table used by the witnesses and
counterexamples: one declared dynamic interface, MPH 3 at index 0,
backing region at offset 48, object size 96. -/
def cClass : ClassTable :=
  { mMPH_to_index := fun m => if m = 3 then 0 else -1,
    mInterfaceCount := 1,
    mOffsets := fun _ => 48,
    mSize := 96 }

/-- Concrete environment: IID 30 resolves to MPH 3; all hooks present; the
object sits at address 0 with its IDynamicInterfaceManagement instance at
offset 16; a callback is registered. -/
def cEnv : Env :=
  { classTab := cClass,
    IID_to_MPH := fun i => if i = 30 then 3 else -1,
    hasInit := fun _ => true,
    hasDeinit := fun _ => true,
    hasResume := fun _ => true,
    base := 0,
    dimOffset := 16,
    hasCallback := true }

/-- Concrete object with every slot SUSPENDED and bit 0 of the mask set. -/
def cObjSuspended : IObject :=
  { mInterfaceStates := fun _ => IState.suspended, mGottenMask := 1 }

/-- Concrete object with every slot ADDED and bit 0 of the mask set. -/
def cObjAdded : IObject :=
  { mInterfaceStates := fun _ => IState.added, mGottenMask := 1 }

/-- Concrete object with every slot UNINITIALIZED and bit 0 set. -/
def cObjUninit : IObject :=
  { mInterfaceStates := fun _ => IState.uninitialized, mGottenMask := 1 }

/-- Concrete object with every slot ADDING_1 (pending asynchronous add). -/
def cObjAdding1 : IObject :=
  { mInterfaceStates := fun _ => IState.adding_1, mGottenMask := 0 }

/-- Concrete object with every slot ADDING_1A (cancelled while queued). -/
def cObjAdding1A : IObject :=
  { mInterfaceStates := fun _ => IState.adding_1A, mGottenMask := 0 }

/-- C1: the claim says a synchronous Resume on a SUSPENDED slot invokes
the resume hook on the capability's backing region at the layout-defined
offset inside the owning object (base + offset, here 0 + 48), sets the
slot to ADDED and returns SUCCESS.  The code (line 365) computes the hook
argument as `(char *) this + offset` from the IDynamicInterfaceManagement
instance instead of `(char *) thisObject + offset`, so the hook runs at
base + dimOffset + offset = 64, not 48, even though state and result are
as claimed.  Line 274 (HandleResume) and lines 152/209 use thisObject,
showing the intent the claim describes. -/
theorem C1_sync_resume_hook_wrong_region :
    (IDynamicInterfaceManagement_ResumeInterface cEnv cObjSuspended (some 30) false 0 id).1
      = SL_RESULT_SUCCESS
    ∧ (IDynamicInterfaceManagement_ResumeInterface cEnv cObjSuspended
        (some 30) false 0 id).2.1.mInterfaceStates 0 = IState.added
    ∧ Event.resumeHook 64
        ∈ (IDynamicInterfaceManagement_ResumeInterface cEnv cObjSuspended
            (some 30) false 0 id).2.2
    ∧ Event.resumeHook 48
        ∉ (IDynamicInterfaceManagement_ResumeInterface cEnv cObjSuspended
            (some 30) false 0 id).2.2 := by
  decide

/-- C2: the claim says every guard-mismatch path returns
PreconditionsViolated, changes nothing, and releases the object lock
exactly once so it is balanced on return.  ResumeInterface's mismatch
path unlocks at line 381 and again at line 386: on a resolvable
identifier with the slot ADDED it returns PreconditionsViolated and
leaves the object unchanged, but its trace holds one lock and two
unlocks, so the lock is over-released. -/
theorem C2_resume_mismatch_overreleases_lock :
    (IDynamicInterfaceManagement_ResumeInterface cEnv cObjAdded (some 30) false 0 id).1
      = SL_RESULT_PRECONDITIONS_VIOLATED
    ∧ (IDynamicInterfaceManagement_ResumeInterface cEnv cObjAdded
        (some 30) false 0 id).2.1 = cObjAdded
    ∧ ((IDynamicInterfaceManagement_ResumeInterface cEnv cObjAdded
        (some 30) false 0 id).2.2.countP Event.isLock) = 1
    ∧ ((IDynamicInterfaceManagement_ResumeInterface cEnv cObjAdded
        (some 30) false 0 id).2.2.countP Event.isUnlock) = 2
    ∧ ¬ lockBalanced (IDynamicInterfaceManagement_ResumeInterface cEnv cObjAdded
        (some 30) false 0 id).2.2 := by
  refine ⟨by decide, rfl, by decide, by decide, ?_⟩
  intro hbal
  have h3 := hbal.1 3
  have hc : heldBefore (IDynamicInterfaceManagement_ResumeInterface cEnv cObjAdded
      (some 30) false 0 id).2.2 3 = -1 := by decide
  omega

/-- C7: a non-null capability identifier that does not resolve to a slot
of the class (either IID_to_MPH fails, or the class's MPH-to-index map is
negative) makes AddInterface return FeatureUnsupported and
RemoveInterface/ResumeInterface return PreconditionsViolated, with the
object returned unchanged and an empty trace (lines 109-110, 189-190,
324-325). -/
theorem C7_unknown_iid (env : Env) (obj : IObject) (iidv : Nat)
    (async : Bool) (pr : Nat) (intf : IState → IState)
    (hun : env.IID_to_MPH iidv < 0 ∨
      (0 ≤ env.IID_to_MPH iidv ∧
        env.classTab.mMPH_to_index (env.IID_to_MPH iidv).toNat < 0)) :
    IDynamicInterfaceManagement_AddInterface env obj (some iidv) async pr intf
      = (SL_RESULT_FEATURE_UNSUPPORTED, obj, [])
    ∧ IDynamicInterfaceManagement_RemoveInterface env obj (some iidv)
      = (SL_RESULT_PRECONDITIONS_VIOLATED, obj, [])
    ∧ IDynamicInterfaceManagement_ResumeInterface env obj (some iidv) async pr intf
      = (SL_RESULT_PRECONDITIONS_VIOLATED, obj, []) := by
  rcases hun with h | ⟨h0, h⟩
  · refine ⟨?_, ?_, ?_⟩ <;>
      simp [IDynamicInterfaceManagement_AddInterface,
        IDynamicInterfaceManagement_RemoveInterface,
        IDynamicInterfaceManagement_ResumeInterface, h]
  · refine ⟨?_, ?_, ?_⟩ <;>
      simp [IDynamicInterfaceManagement_AddInterface,
        IDynamicInterfaceManagement_RemoveInterface,
        IDynamicInterfaceManagement_ResumeInterface, h, not_lt.mpr h0]

/-- Witness for C7 at IID 99, unknown to cEnv. -/
theorem C7_unknown_iid_witness :
    (cEnv.IID_to_MPH 99 < 0 ∨
      (0 ≤ cEnv.IID_to_MPH 99 ∧
        cEnv.classTab.mMPH_to_index (cEnv.IID_to_MPH 99).toNat < 0))
    ∧ (IDynamicInterfaceManagement_AddInterface cEnv cObjUninit (some 99) false 0 id
        = (SL_RESULT_FEATURE_UNSUPPORTED, cObjUninit, [])
      ∧ IDynamicInterfaceManagement_RemoveInterface cEnv cObjUninit (some 99)
        = (SL_RESULT_PRECONDITIONS_VIOLATED, cObjUninit, [])
      ∧ IDynamicInterfaceManagement_ResumeInterface cEnv cObjUninit (some 99) false 0 id
        = (SL_RESULT_PRECONDITIONS_VIOLATED, cObjUninit, [])) :=
  ⟨Or.inl (by decide),
   C7_unknown_iid cEnv cObjUninit 99 false 0 id (Or.inl (by decide))⟩

/-- Evaluation of the synchronous AddInterface path (lines 142-164) on a
resolvable identifier and an UNINITIALIZED slot. -/
theorem AddInterface_sync_uninit_eval (env : Env) (obj : IObject)
    (iidv MPHn idx pr : Nat) (intf : IState → IState)
    (hm : env.IID_to_MPH iidv = (MPHn : Int))
    (hi : env.classTab.mMPH_to_index MPHn = (idx : Int))
    (hstate : obj.mInterfaceStates idx = IState.uninitialized) :
    IDynamicInterfaceManagement_AddInterface env obj (some iidv) false pr intf
      = (SL_RESULT_SUCCESS, setState obj idx IState.added,
         [Event.lock, Event.stateWrite idx IState.adding_2, Event.unlock,
          Event.memsetZero (env.base + env.classTab.mOffsets idx) (itfSize env.classTab idx),
          Event.backref (env.base + env.classTab.mOffsets idx)]
         ++ (if env.hasInit MPHn then
              [Event.initHook (env.base + env.classTab.mOffsets idx)] else [])
         ++ [Event.lock, Event.stateWrite idx IState.added, Event.unlock]) := by
  have ht : ((MPHn : Int)).toNat = MPHn := rfl
  have ht2 : ((idx : Int)).toNat = idx := rfl
  simp only [IDynamicInterfaceManagement_AddInterface, hm]
  rw [if_neg (by omega)]
  simp only [ht, hi]
  rw [if_neg (by omega)]
  simp only [ht2, hstate]
  simp

/-- Evaluation of RemoveInterface (lines 195-227) on a resolvable
identifier and a slot in ADDED or SUSPENDED. -/
theorem RemoveInterface_eval (env : Env) (obj : IObject)
    (iidv MPHn idx : Nat)
    (hm : env.IID_to_MPH iidv = (MPHn : Int))
    (hi : env.classTab.mMPH_to_index MPHn = (idx : Int))
    (hstate : obj.mInterfaceStates idx = IState.added ∨
      obj.mInterfaceStates idx = IState.suspended) :
    IDynamicInterfaceManagement_RemoveInterface env obj (some iidv)
      = (SL_RESULT_SUCCESS,
         setState { setState obj idx IState.removing with
             mGottenMask := obj.mGottenMask &&& (UINT32_MASK ^^^ (1 <<< idx)) }
           idx IState.uninitialized,
         [Event.lock, Event.stateWrite idx IState.removing, Event.unlock]
         ++ (if env.hasDeinit MPHn then
              [Event.deinitHook (env.base + env.classTab.mOffsets idx)] else [])
         ++ [Event.lock, Event.stateWrite idx IState.uninitialized, Event.unlock]) := by
  have ht : ((MPHn : Int)).toNat = MPHn := rfl
  have ht2 : ((idx : Int)).toNat = idx := rfl
  simp only [IDynamicInterfaceManagement_RemoveInterface, hm]
  rw [if_neg (by omega)]
  simp only [ht, hi]
  rw [if_neg (by omega)]
  simp only [ht2]
  rcases hstate with h | h <;> simp only [h] <;> simp [setState]

/-- Evaluation of the synchronous ResumeInterface path (lines 357-375) on
a resolvable identifier and a SUSPENDED slot; the hook address is the one
the code computes from `this` at line 365. -/
theorem ResumeInterface_sync_suspended_eval (env : Env) (obj : IObject)
    (iidv MPHn idx pr : Nat) (intf : IState → IState)
    (hm : env.IID_to_MPH iidv = (MPHn : Int))
    (hi : env.classTab.mMPH_to_index MPHn = (idx : Int))
    (hstate : obj.mInterfaceStates idx = IState.suspended) :
    IDynamicInterfaceManagement_ResumeInterface env obj (some iidv) false pr intf
      = (SL_RESULT_SUCCESS, setState obj idx IState.added,
         [Event.lock, Event.stateWrite idx IState.resuming_2, Event.unlock]
         ++ (if env.hasResume MPHn then
              [Event.resumeHook (env.base + env.dimOffset + env.classTab.mOffsets idx)]
             else [])
         ++ [Event.lock, Event.stateWrite idx IState.added, Event.unlock]) := by
  have ht : ((MPHn : Int)).toNat = MPHn := rfl
  have ht2 : ((idx : Int)).toNat = idx := rfl
  simp only [IDynamicInterfaceManagement_ResumeInterface, hm]
  rw [if_neg (by omega)]
  simp only [ht, hi]
  rw [if_neg (by omega)]
  simp only [ht2, hstate]
  simp

/-- C8: synchronous AddInterface on an UNINITIALIZED slot (lines 142-164)
zeroes the backing region `[base+offset, base+offset+size)`, installs the
back-reference there, invokes the init hook exactly when one is present —
in that order and with the lock released — leaves the slot ADDED, and
returns SUCCESS. -/
theorem C8_sync_add_uninitialized (env : Env) (obj : IObject)
    (iidv MPHn idx pr : Nat) (intf : IState → IState)
    (hm : env.IID_to_MPH iidv = (MPHn : Int))
    (hi : env.classTab.mMPH_to_index MPHn = (idx : Int))
    (hstate : obj.mInterfaceStates idx = IState.uninitialized) :
    (IDynamicInterfaceManagement_AddInterface env obj (some iidv) false pr intf).1
      = SL_RESULT_SUCCESS
    ∧ (IDynamicInterfaceManagement_AddInterface env obj
        (some iidv) false pr intf).2.1.mInterfaceStates idx = IState.added
    ∧ (IDynamicInterfaceManagement_AddInterface env obj
        (some iidv) false pr intf).2.2.filter Event.isWork
      = [Event.memsetZero (env.base + env.classTab.mOffsets idx) (itfSize env.classTab idx),
         Event.backref (env.base + env.classTab.mOffsets idx)]
        ++ (if env.hasInit MPHn then
             [Event.initHook (env.base + env.classTab.mOffsets idx)] else [])
    ∧ unlockedWhen (IDynamicInterfaceManagement_AddInterface env obj
        (some iidv) false pr intf).2.2 Event.isWork := by
  rw [AddInterface_sync_uninit_eval env obj iidv MPHn idx pr intf hm hi hstate]
  refine ⟨rfl, by simp, ?_, ?_⟩
  · cases h : env.hasInit MPHn <;> simp only [h] <;> rfl
  · cases h : env.hasInit MPHn <;> simp only [h] <;>
      exact checkUnlocked_sound rfl

/-- Witness for C8 in the concrete environment. -/
theorem C8_sync_add_uninitialized_witness :
    cEnv.IID_to_MPH 30 = ((3 : Nat) : Int)
    ∧ cEnv.classTab.mMPH_to_index 3 = ((0 : Nat) : Int)
    ∧ cObjUninit.mInterfaceStates 0 = IState.uninitialized
    ∧ ((IDynamicInterfaceManagement_AddInterface cEnv cObjUninit (some 30) false 0 id).1
        = SL_RESULT_SUCCESS
      ∧ (IDynamicInterfaceManagement_AddInterface cEnv cObjUninit
          (some 30) false 0 id).2.1.mInterfaceStates 0 = IState.added
      ∧ (IDynamicInterfaceManagement_AddInterface cEnv cObjUninit
          (some 30) false 0 id).2.2.filter Event.isWork
        = [Event.memsetZero (cEnv.base + cEnv.classTab.mOffsets 0) (itfSize cEnv.classTab 0),
           Event.backref (cEnv.base + cEnv.classTab.mOffsets 0)]
          ++ (if cEnv.hasInit 3 then
               [Event.initHook (cEnv.base + cEnv.classTab.mOffsets 0)] else [])
      ∧ unlockedWhen (IDynamicInterfaceManagement_AddInterface cEnv cObjUninit
          (some 30) false 0 id).2.2 Event.isWork) :=
  ⟨by decide, by decide, rfl,
   C8_sync_add_uninitialized cEnv cObjUninit 30 3 0 0 id (by decide) (by decide) rfl⟩

/-- C6: RemoveInterface on a slot in ADDED or SUSPENDED (lines 195-227)
sets the slot to REMOVING, clears the slot's bit of the acquired mask,
runs the deinit hook exactly when present with the lock released, commits
the slot to UNINITIALIZED and returns SUCCESS. -/
theorem C6_remove_added_or_suspended (env : Env) (obj : IObject)
    (iidv MPHn idx : Nat)
    (hm : env.IID_to_MPH iidv = (MPHn : Int))
    (hi : env.classTab.mMPH_to_index MPHn = (idx : Int))
    (h32 : idx < 32)
    (hstate : obj.mInterfaceStates idx = IState.added ∨
      obj.mInterfaceStates idx = IState.suspended) :
    (IDynamicInterfaceManagement_RemoveInterface env obj (some iidv)).1
      = SL_RESULT_SUCCESS
    ∧ (IDynamicInterfaceManagement_RemoveInterface env obj
        (some iidv)).2.1.mInterfaceStates idx = IState.uninitialized
    ∧ Event.stateWrite idx IState.removing
        ∈ (IDynamicInterfaceManagement_RemoveInterface env obj (some iidv)).2.2
    ∧ (IDynamicInterfaceManagement_RemoveInterface env obj (some iidv)).2.1.mGottenMask
        = obj.mGottenMask &&& (UINT32_MASK ^^^ (1 <<< idx))
    ∧ Nat.testBit (IDynamicInterfaceManagement_RemoveInterface env obj
        (some iidv)).2.1.mGottenMask idx = false
    ∧ (IDynamicInterfaceManagement_RemoveInterface env obj (some iidv)).2.2.filter
        Event.isWork
      = (if env.hasDeinit MPHn then
          [Event.deinitHook (env.base + env.classTab.mOffsets idx)] else [])
    ∧ unlockedWhen (IDynamicInterfaceManagement_RemoveInterface env obj
        (some iidv)).2.2 Event.isWork := by
  rw [RemoveInterface_eval env obj iidv MPHn idx hm hi hstate]
  refine ⟨rfl, by simp, by simp, rfl, ?_, ?_, ?_⟩
  · exact clearBit_testBit obj.mGottenMask idx h32
  · cases h : env.hasDeinit MPHn <;> simp only [h] <;> rfl
  · cases h : env.hasDeinit MPHn <;> simp only [h] <;>
      exact checkUnlocked_sound rfl

/-- Witness for C6 on a SUSPENDED slot with the acquired bit set. -/
theorem C6_remove_added_or_suspended_witness :
    cEnv.IID_to_MPH 30 = ((3 : Nat) : Int)
    ∧ cEnv.classTab.mMPH_to_index 3 = ((0 : Nat) : Int)
    ∧ (0 : Nat) < 32
    ∧ (cObjSuspended.mInterfaceStates 0 = IState.added ∨
        cObjSuspended.mInterfaceStates 0 = IState.suspended)
    ∧ ((IDynamicInterfaceManagement_RemoveInterface cEnv cObjSuspended (some 30)).1
        = SL_RESULT_SUCCESS
      ∧ (IDynamicInterfaceManagement_RemoveInterface cEnv cObjSuspended
          (some 30)).2.1.mInterfaceStates 0 = IState.uninitialized
      ∧ Event.stateWrite 0 IState.removing
          ∈ (IDynamicInterfaceManagement_RemoveInterface cEnv cObjSuspended (some 30)).2.2
      ∧ (IDynamicInterfaceManagement_RemoveInterface cEnv cObjSuspended
          (some 30)).2.1.mGottenMask
          = cObjSuspended.mGottenMask &&& (UINT32_MASK ^^^ (1 <<< 0))
      ∧ Nat.testBit (IDynamicInterfaceManagement_RemoveInterface cEnv cObjSuspended
          (some 30)).2.1.mGottenMask 0 = false
      ∧ (IDynamicInterfaceManagement_RemoveInterface cEnv cObjSuspended (some 30)).2.2.filter
          Event.isWork
        = (if cEnv.hasDeinit 3 then
            [Event.deinitHook (cEnv.base + cEnv.classTab.mOffsets 0)] else [])
      ∧ unlockedWhen (IDynamicInterfaceManagement_RemoveInterface cEnv cObjSuspended
          (some 30)).2.2 Event.isWork) :=
  ⟨by decide, by decide, by decide, Or.inr rfl,
   C6_remove_added_or_suspended cEnv cObjSuspended 30 3 0 (by decide) (by decide)
     (by decide) (Or.inr rfl)⟩

/-- C9: starting from an UNINITIALIZED slot whose acquired bit may be set,
synchronous Add, then Remove, then synchronous Add on the same capability
end with the slot ADDED and the slot's acquired bit clear: the Add paths
never touch the mask and Remove clears the bit (line 203), so no bit set
before the removal survives it. -/
theorem C9_add_remove_add (env : Env) (obj : IObject)
    (iidv MPHn idx pr : Nat) (intf : IState → IState)
    (o1 o2 o3 : IObject)
    (hm : env.IID_to_MPH iidv = (MPHn : Int))
    (hi : env.classTab.mMPH_to_index MPHn = (idx : Int))
    (h32 : idx < 32)
    (hstate : obj.mInterfaceStates idx = IState.uninitialized)
    (ho1 : o1 = (IDynamicInterfaceManagement_AddInterface env obj
        (some iidv) false pr intf).2.1)
    (ho2 : o2 = (IDynamicInterfaceManagement_RemoveInterface env o1 (some iidv)).2.1)
    (ho3 : o3 = (IDynamicInterfaceManagement_AddInterface env o2
        (some iidv) false pr intf).2.1) :
    o3.mInterfaceStates idx = IState.added
    ∧ Nat.testBit o3.mGottenMask idx = false := by
  rw [AddInterface_sync_uninit_eval env obj iidv MPHn idx pr intf hm hi hstate] at ho1
  dsimp only at ho1
  have hs1 : o1.mInterfaceStates idx = IState.added := by
    rw [ho1]; simp
  rw [RemoveInterface_eval env o1 iidv MPHn idx hm hi (Or.inl hs1)] at ho2
  dsimp only at ho2
  have hs2 : o2.mInterfaceStates idx = IState.uninitialized := by
    rw [ho2]; simp
  have hm2 : o2.mGottenMask = o1.mGottenMask &&& (UINT32_MASK ^^^ (1 <<< idx)) := by
    rw [ho2]; rfl
  rw [AddInterface_sync_uninit_eval env o2 iidv MPHn idx pr intf hm hi hs2] at ho3
  dsimp only at ho3
  constructor
  · rw [ho3]; simp
  · have hm3 : o3.mGottenMask = o2.mGottenMask := by rw [ho3]; rfl
    rw [hm3, hm2]
    exact clearBit_testBit o1.mGottenMask idx h32

/-- Witness for C9 starting from `cObjUninit`, whose acquired bit 0 is
set before the sequence. -/
theorem C9_add_remove_add_witness :
    cEnv.IID_to_MPH 30 = ((3 : Nat) : Int)
    ∧ cEnv.classTab.mMPH_to_index 3 = ((0 : Nat) : Int)
    ∧ (0 : Nat) < 32
    ∧ cObjUninit.mInterfaceStates 0 = IState.uninitialized
    ∧ ((IDynamicInterfaceManagement_AddInterface cEnv
          (IDynamicInterfaceManagement_RemoveInterface cEnv
            (IDynamicInterfaceManagement_AddInterface cEnv cObjUninit
              (some 30) false 0 id).2.1 (some 30)).2.1
          (some 30) false 0 id).2.1.mInterfaceStates 0 = IState.added
      ∧ Nat.testBit (IDynamicInterfaceManagement_AddInterface cEnv
          (IDynamicInterfaceManagement_RemoveInterface cEnv
            (IDynamicInterfaceManagement_AddInterface cEnv cObjUninit
              (some 30) false 0 id).2.1 (some 30)).2.1
          (some 30) false 0 id).2.1.mGottenMask 0 = false) :=
  ⟨by decide, by decide, by decide, rfl,
   C9_add_remove_add cEnv cObjUninit 30 3 0 0 id
     (IDynamicInterfaceManagement_AddInterface cEnv cObjUninit (some 30) false 0 id).2.1
     (IDynamicInterfaceManagement_RemoveInterface cEnv
       (IDynamicInterfaceManagement_AddInterface cEnv cObjUninit
         (some 30) false 0 id).2.1 (some 30)).2.1
     (IDynamicInterfaceManagement_AddInterface cEnv
       (IDynamicInterfaceManagement_RemoveInterface cEnv
         (IDynamicInterfaceManagement_AddInterface cEnv cObjUninit
           (some 30) false 0 id).2.1 (some 30)).2.1
       (some 30) false 0 id).2.1
     (by decide) (by decide) (by decide) rfl rfl rfl rfl⟩

/-- C3: the worker handler HandleAdd observing ADDING_1 (lines 45-69)
writes ADDING_2, performs the zeroing, back-reference installation and
(when present) init hook at lock depth zero, commits ADDED, and — when a
callback is registered — invokes it exactly once with the
AsyncTermination event, result SUCCESS and the slot's interface, also at
lock depth zero. -/
theorem C3_handleAdd_adding1 (env : Env) (obj : IObject) (MPH idx : Nat)
    (hi : env.classTab.mMPH_to_index MPH = (idx : Int))
    (hstate : obj.mInterfaceStates idx = IState.adding_1) :
    (HandleAdd env obj MPH).1.mInterfaceStates idx = IState.added
    ∧ Event.stateWrite idx IState.adding_2 ∈ (HandleAdd env obj MPH).2
    ∧ (HandleAdd env obj MPH).2.filter Event.isWork
      = [Event.memsetZero (env.base + env.classTab.mOffsets idx) (itfSize env.classTab idx),
         Event.backref (env.base + env.classTab.mOffsets idx)]
        ++ (if env.hasInit MPH then
             [Event.initHook (env.base + env.classTab.mOffsets idx)] else [])
    ∧ unlockedWhen (HandleAdd env obj MPH).2 Event.isWork
    ∧ Event.stateWrite idx IState.added ∈ (HandleAdd env obj MPH).2
    ∧ (HandleAdd env obj MPH).2.filter Event.isCallback
      = (if env.hasCallback then
          [Event.callbackEv SL_DYNAMIC_ITF_EVENT_ASYNC_TERMINATION SL_RESULT_SUCCESS MPH]
         else [])
    ∧ unlockedWhen (HandleAdd env obj MPH).2 Event.isCallback := by
  have ht : ((idx : Int)).toNat = idx := rfl
  simp only [HandleAdd, hi, ht, hstate]
  cases hInit : env.hasInit MPH <;> cases hcb : env.hasCallback <;>
    exact ⟨by simp, by simp, rfl, checkUnlocked_sound rfl, by simp, rfl,
      checkUnlocked_sound rfl⟩

/-- Witness for C3 on a slot pending an asynchronous add. -/
theorem C3_handleAdd_adding1_witness :
    cEnv.classTab.mMPH_to_index 3 = ((0 : Nat) : Int)
    ∧ cObjAdding1.mInterfaceStates 0 = IState.adding_1
    ∧ ((HandleAdd cEnv cObjAdding1 3).1.mInterfaceStates 0 = IState.added
      ∧ Event.stateWrite 0 IState.adding_2 ∈ (HandleAdd cEnv cObjAdding1 3).2
      ∧ (HandleAdd cEnv cObjAdding1 3).2.filter Event.isWork
        = [Event.memsetZero (cEnv.base + cEnv.classTab.mOffsets 0) (itfSize cEnv.classTab 0),
           Event.backref (cEnv.base + cEnv.classTab.mOffsets 0)]
          ++ (if cEnv.hasInit 3 then
               [Event.initHook (cEnv.base + cEnv.classTab.mOffsets 0)] else [])
      ∧ unlockedWhen (HandleAdd cEnv cObjAdding1 3).2 Event.isWork
      ∧ Event.stateWrite 0 IState.added ∈ (HandleAdd cEnv cObjAdding1 3).2
      ∧ (HandleAdd cEnv cObjAdding1 3).2.filter Event.isCallback
        = (if cEnv.hasCallback then
            [Event.callbackEv SL_DYNAMIC_ITF_EVENT_ASYNC_TERMINATION SL_RESULT_SUCCESS 3]
           else [])
      ∧ unlockedWhen (HandleAdd cEnv cObjAdding1 3).2 Event.isCallback) :=
  ⟨by decide, rfl, C3_handleAdd_adding1 cEnv cObjAdding1 3 0 (by decide) rfl⟩

/-- C5: HandleAdd observing ADDING_1A (lines 71-74, a queued add that was
cancelled) performs no hook, writes the slot back to UNINITIALIZED, and
the registered callback (if any) fires exactly once with
OperationAborted. -/
theorem C5_handleAdd_aborted (env : Env) (obj : IObject) (MPH idx : Nat)
    (hi : env.classTab.mMPH_to_index MPH = (idx : Int))
    (hstate : obj.mInterfaceStates idx = IState.adding_1A) :
    (HandleAdd env obj MPH).1.mInterfaceStates idx = IState.uninitialized
    ∧ (HandleAdd env obj MPH).2.filter Event.isHook = []
    ∧ (HandleAdd env obj MPH).2.filter Event.isWork = []
    ∧ (HandleAdd env obj MPH).2.filter Event.isCallback
      = (if env.hasCallback then
          [Event.callbackEv SL_DYNAMIC_ITF_EVENT_ASYNC_TERMINATION
            SL_RESULT_OPERATION_ABORTED MPH]
         else [])
    ∧ unlockedWhen (HandleAdd env obj MPH).2 Event.isCallback := by
  have ht : ((idx : Int)).toNat = idx := rfl
  simp only [HandleAdd, hi, ht, hstate]
  cases hcb : env.hasCallback <;>
    exact ⟨by simp, rfl, rfl, rfl, checkUnlocked_sound rfl⟩

/-- Witness for C5 on a slot cancelled while queued. -/
theorem C5_handleAdd_aborted_witness :
    cEnv.classTab.mMPH_to_index 3 = ((0 : Nat) : Int)
    ∧ cObjAdding1A.mInterfaceStates 0 = IState.adding_1A
    ∧ ((HandleAdd cEnv cObjAdding1A 3).1.mInterfaceStates 0 = IState.uninitialized
      ∧ (HandleAdd cEnv cObjAdding1A 3).2.filter Event.isHook = []
      ∧ (HandleAdd cEnv cObjAdding1A 3).2.filter Event.isWork = []
      ∧ (HandleAdd cEnv cObjAdding1A 3).2.filter Event.isCallback
        = (if cEnv.hasCallback then
            [Event.callbackEv SL_DYNAMIC_ITF_EVENT_ASYNC_TERMINATION
              SL_RESULT_OPERATION_ABORTED 3]
           else [])
      ∧ unlockedWhen (HandleAdd cEnv cObjAdding1A 3).2 Event.isCallback) :=
  ⟨by decide, rfl, C5_handleAdd_aborted cEnv cObjAdding1A 3 0 (by decide) rfl⟩

/-- Writing the same slot twice keeps only the last value. -/
theorem setState_setState (o : IObject) (i : Nat) (a b : IState) :
    setState (setState o i a) i b = setState o i b := by
  unfold setState
  congr 1
  funext j
  by_cases hj : j = i <;> simp [hj]

/-- C10: a worker handler that observes the slot in any state other than
its expected pending state or the cancelled-while-queued variant
(default cases, lines 76-79 and 292-295) writes back the value it read,
performs no work on the backing region, and still invokes the registered
callback (if any) with result InternalError. -/
theorem C10_handler_unexpected_state (env : Env) (obj : IObject)
    (MPH idx : Nat) (s : IState)
    (hi : env.classTab.mMPH_to_index MPH = (idx : Int))
    (hstate : obj.mInterfaceStates idx = s) :
    (s ≠ IState.adding_1 → s ≠ IState.adding_1A →
      (HandleAdd env obj MPH).1.mInterfaceStates idx = s
      ∧ Event.stateWrite idx s ∈ (HandleAdd env obj MPH).2
      ∧ (HandleAdd env obj MPH).2.filter Event.isWork = []
      ∧ (HandleAdd env obj MPH).2.filter Event.isCallback
        = (if env.hasCallback then
            [Event.callbackEv SL_DYNAMIC_ITF_EVENT_ASYNC_TERMINATION
              SL_RESULT_INTERNAL_ERROR MPH]
           else []))
    ∧ (s ≠ IState.resuming_1 → s ≠ IState.resuming_1A →
      (HandleResume env obj MPH).1.mInterfaceStates idx = s
      ∧ Event.stateWrite idx s ∈ (HandleResume env obj MPH).2
      ∧ (HandleResume env obj MPH).2.filter Event.isWork = []
      ∧ (HandleResume env obj MPH).2.filter Event.isCallback
        = (if env.hasCallback then
            [Event.callbackEv SL_DYNAMIC_ITF_EVENT_ASYNC_TERMINATION
              SL_RESULT_INTERNAL_ERROR MPH]
           else [])) := by
  have ht : ((idx : Int)).toNat = idx := rfl
  constructor
  · intro h1 h2
    simp only [HandleAdd, hi, ht, hstate]
    cases s
    case adding_1 => exact absurd rfl h1
    case adding_1A => exact absurd rfl h2
    all_goals cases hcb : env.hasCallback <;> exact ⟨by simp, by simp, rfl, rfl⟩
  · intro h1 h2
    simp only [HandleResume, hi, ht, hstate]
    cases s
    case resuming_1 => exact absurd rfl h1
    case resuming_1A => exact absurd rfl h2
    all_goals cases hcb : env.hasCallback <;> exact ⟨by simp, by simp, rfl, rfl⟩

/-- Witness for C10 with the slot observed in ADDED, unexpected for both
handlers. -/
theorem C10_handler_unexpected_state_witness :
    cEnv.classTab.mMPH_to_index 3 = ((0 : Nat) : Int)
    ∧ cObjAdded.mInterfaceStates 0 = IState.added
    ∧ ((IState.added ≠ IState.adding_1 → IState.added ≠ IState.adding_1A →
        (HandleAdd cEnv cObjAdded 3).1.mInterfaceStates 0 = IState.added
        ∧ Event.stateWrite 0 IState.added ∈ (HandleAdd cEnv cObjAdded 3).2
        ∧ (HandleAdd cEnv cObjAdded 3).2.filter Event.isWork = []
        ∧ (HandleAdd cEnv cObjAdded 3).2.filter Event.isCallback
          = (if cEnv.hasCallback then
              [Event.callbackEv SL_DYNAMIC_ITF_EVENT_ASYNC_TERMINATION
                SL_RESULT_INTERNAL_ERROR 3]
             else []))
      ∧ (IState.added ≠ IState.resuming_1 → IState.added ≠ IState.resuming_1A →
        (HandleResume cEnv cObjAdded 3).1.mInterfaceStates 0 = IState.added
        ∧ Event.stateWrite 0 IState.added ∈ (HandleResume cEnv cObjAdded 3).2
        ∧ (HandleResume cEnv cObjAdded 3).2.filter Event.isWork = []
        ∧ (HandleResume cEnv cObjAdded 3).2.filter Event.isCallback
          = (if cEnv.hasCallback then
              [Event.callbackEv SL_DYNAMIC_ITF_EVENT_ASYNC_TERMINATION
                SL_RESULT_INTERNAL_ERROR 3]
             else []))) :=
  ⟨by decide, rfl, C10_handler_unexpected_state cEnv cObjAdded 3 0 IState.added
    (by decide) rfl⟩

/-- C4: when ThreadPool_add fails during an asynchronous Add (lines
127-140) or Resume (lines 342-355), the operation re-locks and reverts
the slot to UNINITIALIZED (resp. SUSPENDED) exactly when the state it
re-reads — possibly changed by another actor while unlocked, modelled by
`intf` — is still the pending state or its cancelled variant, leaves the
slot holding the re-read value otherwise, returns the pool's own result
code, and invokes no callback. -/
theorem C4_enqueue_failure_rollback (env : Env) (obj : IObject)
    (iidv MPHn idx pr : Nat) (intf : IState → IState)
    (hm : env.IID_to_MPH iidv = (MPHn : Int))
    (hi : env.classTab.mMPH_to_index MPHn = (idx : Int))
    (hpr : pr ≠ SL_RESULT_SUCCESS) :
    (obj.mInterfaceStates idx = IState.uninitialized →
      (IDynamicInterfaceManagement_AddInterface env obj (some iidv) true pr intf).1 = pr
      ∧ (IDynamicInterfaceManagement_AddInterface env obj (some iidv) true pr intf).2.1
        = setState obj idx
            (if intf IState.adding_1 = IState.adding_1 ∨
                intf IState.adding_1 = IState.adding_1A
             then IState.uninitialized else intf IState.adding_1)
      ∧ (IDynamicInterfaceManagement_AddInterface env obj
          (some iidv) true pr intf).2.2.filter Event.isCallback = [])
    ∧ (obj.mInterfaceStates idx = IState.suspended →
      (IDynamicInterfaceManagement_ResumeInterface env obj (some iidv) true pr intf).1 = pr
      ∧ (IDynamicInterfaceManagement_ResumeInterface env obj (some iidv) true pr intf).2.1
        = setState obj idx
            (if intf IState.resuming_1 = IState.resuming_1 ∨
                intf IState.resuming_1 = IState.resuming_1A
             then IState.suspended else intf IState.resuming_1)
      ∧ (IDynamicInterfaceManagement_ResumeInterface env obj
          (some iidv) true pr intf).2.2.filter Event.isCallback = []) := by
  have ht : ((MPHn : Int)).toNat = MPHn := rfl
  have ht2 : ((idx : Int)).toNat = idx := rfl
  constructor
  · intro hstate
    simp only [IDynamicInterfaceManagement_AddInterface, hm]
    rw [if_neg (by omega)]
    simp only [ht, hi]
    rw [if_neg (by omega)]
    simp only [ht2, hstate]
    rw [if_pos trivial, if_neg hpr]
    cases hs : intf IState.adding_1 <;>
      exact ⟨rfl, by simp [setState_setState], rfl⟩
  · intro hstate
    simp only [IDynamicInterfaceManagement_ResumeInterface, hm]
    rw [if_neg (by omega)]
    simp only [ht, hi]
    rw [if_neg (by omega)]
    simp only [ht2, hstate]
    rw [if_pos trivial, if_neg hpr]
    cases hs : intf IState.resuming_1 <;>
      exact ⟨rfl, by simp [setState_setState], rfl⟩

/-- Witness for C4: pool failure RESOURCE_ERROR, no interference. -/
theorem C4_enqueue_failure_rollback_witness :
    cEnv.IID_to_MPH 30 = ((3 : Nat) : Int)
    ∧ cEnv.classTab.mMPH_to_index 3 = ((0 : Nat) : Int)
    ∧ SL_RESULT_RESOURCE_ERROR ≠ SL_RESULT_SUCCESS
    ∧ ((cObjUninit.mInterfaceStates 0 = IState.uninitialized →
        (IDynamicInterfaceManagement_AddInterface cEnv cObjUninit
          (some 30) true SL_RESULT_RESOURCE_ERROR id).1 = SL_RESULT_RESOURCE_ERROR
        ∧ (IDynamicInterfaceManagement_AddInterface cEnv cObjUninit
            (some 30) true SL_RESULT_RESOURCE_ERROR id).2.1
          = setState cObjUninit 0
              (if id IState.adding_1 = IState.adding_1 ∨
                  id IState.adding_1 = IState.adding_1A
               then IState.uninitialized else id IState.adding_1)
        ∧ (IDynamicInterfaceManagement_AddInterface cEnv cObjUninit
            (some 30) true SL_RESULT_RESOURCE_ERROR id).2.2.filter Event.isCallback = [])
      ∧ (cObjUninit.mInterfaceStates 0 = IState.suspended →
        (IDynamicInterfaceManagement_ResumeInterface cEnv cObjUninit
          (some 30) true SL_RESULT_RESOURCE_ERROR id).1 = SL_RESULT_RESOURCE_ERROR
        ∧ (IDynamicInterfaceManagement_ResumeInterface cEnv cObjUninit
            (some 30) true SL_RESULT_RESOURCE_ERROR id).2.1
          = setState cObjUninit 0
              (if id IState.resuming_1 = IState.resuming_1 ∨
                  id IState.resuming_1 = IState.resuming_1A
               then IState.suspended else id IState.resuming_1)
        ∧ (IDynamicInterfaceManagement_ResumeInterface cEnv cObjUninit
            (some 30) true SL_RESULT_RESOURCE_ERROR id).2.2.filter
              Event.isCallback = [])) :=
  ⟨by decide, by decide, by decide,
   C4_enqueue_failure_rollback cEnv cObjUninit 30 3 0 SL_RESULT_RESOURCE_ERROR id
     (by decide) (by decide) (by decide)⟩
